import Mathlib

/-!
Shallow embedding of `riiload` (src/src/main.rs): a CLI that pushes an
executable binary to a Wii over TCP, with a persisted default address.

External effects (filesystem for the single config file, the executable
read, address resolution, TCP connect, the external `net_send` encoder)
are modelled as oracles in an explicit `Env`; the config file is the one
piece of mutated state and is threaded explicitly.  Every operation also
returns the list of external events it performed, in order, so that
access- and ordering-claims can be stated.
-/

namespace Riiload

/-- OS error kinds, as used by the program (`std::io::ErrorKind`): only
`NotFound` is inspected; everything else is opaque. -/
inductive IOErrorKind where
  | NotFound
  | Other (code : Nat)
deriving DecidableEq, Repr

/-- `std::io::Error`; the program only ever inspects `.kind()`. -/
structure IOErr where
  kind : IOErrorKind
deriving DecidableEq, Repr

/-- State of the single config file on disk.  `inaccessible e` injects an
I/O failure `e` for any access (read, create/write, remove) to the file. -/
inductive FileState where
  | absent
  | present (content : String)
  | inaccessible (e : IOErr)
deriving DecidableEq, Repr

/-- `wiiload_proto::WiiLoadFail`: the external encoder's failure kinds. -/
inductive WiiLoadFail where
  | ArgsTooLong
  | BinaryTooLong
  | NetError (e : IOErr)
deriving DecidableEq, Repr

/-- `DefaultAddressConfigError` from main.rs. -/
inductive DefaultAddressConfigError where
  | NoSuitableFolder
  | NoConfiguredDefault
  | FileAccess (e : IOErr)
deriving DecidableEq, Repr

/-- `NetLoadError` from main.rs. -/
inductive NetLoadError where
  | NoAddressPassed
  | CantResolveAddress
  | ArgsTooLong
  | BinaryTooLong
  | IOFail (e : IOErr)
  | OtherConfigError (e : DefaultAddressConfigError)
deriving DecidableEq, Repr

/-- External events, recorded in order of occurrence.  An event records an
attempted access, whether or not it succeeds. -/
inductive Event where
  /-- `read_to_string` on the config file path. -/
  | readConfig
  /-- `File::create` + `write_all` on the config file path. -/
  | writeConfig (content : String)
  /-- `remove_file` on the config file path. -/
  | removeConfig
  /-- `std::fs::read` of the executable file. -/
  | readExe (path : String)
  /-- `to_socket_addrs` on the given string (DNS / literal IP parse). -/
  | resolve (s : String)
  /-- `TcpStream::connect` to the given candidate address. -/
  | connect (addr : Nat)
  /-- `net_send` over the given stream with payload, args, compression. -/
  | send (stream : Nat) (payload : List Nat) (args : String) (level : Option Nat)
deriving DecidableEq, Repr

/-- The environment: the platform config directory (`dirs::config_dir`),
the current config-file state, and oracles for the remaining external
effects.  Socket addresses and TCP streams are opaque (`Nat`). -/
structure Env where
  configDir : Option String
  configFile : FileState
  /-- `std::fs::read` of an arbitrary path (only the executable is read). -/
  readFile : String → Except IOErr (List Nat)
  /-- `ToSocketAddrs::to_socket_addrs`: fails, or yields candidates in order. -/
  toSocketAddrs : String → Except Unit (List Nat)
  /-- `TcpStream::connect` on a single candidate. -/
  tcpConnect : Nat → Except IOErr Nat
  /-- `wiiload_proto::net_send` (external encoder): stream, payload, args,
  optional compression level. -/
  netSend : Nat → List Nat → String → Option Nat → Except WiiLoadFail Unit

-- ---------- constants (main.rs lines 73, 213, 214) ----------

def FILE_NAME : String := "riiload_config"

def DEFAULT_COMPRESSION_LEVEL : Nat := 5

def TCP_PORT : Nat := 4299

-- ---------- error conversions (the `From` impls) ----------

/-- `impl From<IOError> for DefaultAddressConfigError`. -/
def configErrOfIOErr (r : IOErr) : DefaultAddressConfigError :=
  .FileAccess r

/-- `impl From<WiiLoadFail> for NetLoadError`. -/
def netLoadErrOfWiiLoadFail (r : WiiLoadFail) : NetLoadError :=
  match r with
  | .ArgsTooLong => .ArgsTooLong
  | .BinaryTooLong => .BinaryTooLong
  | .NetError e => .IOFail e

/-- `impl From<DefaultAddressConfigError> for NetLoadError`. -/
def netLoadErrOfConfigErr (r : DefaultAddressConfigError) : NetLoadError :=
  match r with
  | .NoConfiguredDefault => .NoAddressPassed
  | _ => .OtherConfigError r

/-- `impl From<IOError> for NetLoadError`. -/
def netLoadErrOfIOErr (r : IOErr) : NetLoadError :=
  .IOFail r

-- ---------- filesystem primitives on the config file ----------

/-- `std::fs::read_to_string` on the config file: a missing file is an
error of kind `NotFound`; an injected failure is returned as-is. -/
def read_to_string (fs : FileState) : Except IOErr String :=
  match fs with
  | .present s => .ok s
  | .absent => .error ⟨.NotFound⟩
  | .inaccessible e => .error e

/-- `File::create` followed by `write_all`: creates or truncates the file
and writes the bytes verbatim; an injected failure is returned as-is. -/
def file_create_write (fs : FileState) (content : String) :
    Except IOErr FileState :=
  match fs with
  | .inaccessible e => .error e
  | _ => .ok (.present content)

/-- `std::fs::remove_file`: a missing file is an error of kind `NotFound`;
an injected failure is returned as-is. -/
def file_remove (fs : FileState) : Except IOErr FileState :=
  match fs with
  | .absent => .error ⟨.NotFound⟩
  | .present _ => .ok .absent
  | .inaccessible e => .error e

-- ---------- config file handling / getting address (main.rs 108-154) ----------

/-- `get_config_path` (main.rs 108-117). -/
def get_config_path (env : Env) : Except DefaultAddressConfigError String :=
  match env.configDir with
  | some c => .ok (c ++ "/" ++ FILE_NAME)
  | none => .error .NoSuitableFolder

/-- `get_default_address` (main.rs 119-128). -/
def get_default_address (env : Env) :
    Except DefaultAddressConfigError String × List Event :=
  match get_config_path env with
  | .error e => (.error e, [])
  | .ok _ =>
    (match read_to_string env.configFile with
     | .ok s => .ok s
     | .error e =>
       match e.kind with
       | .NotFound => .error .NoConfiguredDefault
       | _ => .error (.FileAccess e),
     [Event.readConfig])

/-- `maybe_get_address` (main.rs 131-136). -/
def maybe_get_address (env : Env) (address : Option String) :
    Except DefaultAddressConfigError String × List Event :=
  match address with
  | some a => (.ok a, [])
  | none => get_default_address env

/-- `set_default_address` (main.rs 138-143); returns the updated
environment alongside the result. -/
def set_default_address (env : Env) (new : String) :
    Except DefaultAddressConfigError Unit × Env × List Event :=
  match get_config_path env with
  | .error e => (.error e, env, [])
  | .ok _ =>
    match file_create_write env.configFile new with
    | .error e => (.error (configErrOfIOErr e), env, [Event.writeConfig new])
    | .ok fs' => (.ok (), { env with configFile := fs' }, [Event.writeConfig new])

/-- `remove_config_files` (main.rs 145-154). -/
def remove_config_files (env : Env) :
    Except DefaultAddressConfigError Unit × Env × List Event :=
  match get_config_path env with
  | .error e => (.error e, env, [])
  | .ok _ =>
    match file_remove env.configFile with
    | .error e =>
      match e.kind with
      | .NotFound => (.error .NoConfiguredDefault, env, [Event.removeConfig])
      | _ => (.error (.FileAccess e), env, [Event.removeConfig])
    | .ok fs' => (.ok (), { env with configFile := fs' }, [Event.removeConfig])

-- ---------- net loading (main.rs 217-251) ----------

/-- The string handed to `to_socket_addrs`:
`format!("{}:{}", to_connect_address, TCP_PORT)`. -/
def connect_target (host : String) : String :=
  host ++ ":" ++ toString TCP_PORT

/-- The compression level handed to `net_send`:
`if compression { Some(DEFAULT_COMPRESSION_LEVEL) } else { None }`. -/
def level_of (compression : Bool) : Option Nat :=
  if compression then some DEFAULT_COMPRESSION_LEVEL else none

/-- `do_net_load` (main.rs 217-251). -/
def do_net_load (env : Env) (executable_path : String)
    (address : Option String) (compression : Bool) :
    Except NetLoadError Unit × List Event :=
  match env.readFile executable_path with
  | .error e => (.error (netLoadErrOfIOErr e), [Event.readExe executable_path])
  | .ok executable_data =>
    match maybe_get_address env address with
    | (.error e, t1) =>
      (.error (netLoadErrOfConfigErr e), Event.readExe executable_path :: t1)
    | (.ok to_connect_address, t1) =>
      let s := connect_target to_connect_address
      let t2 := Event.readExe executable_path :: t1 ++ [Event.resolve s]
      match env.toSocketAddrs s with
      | .error _ => (.error .CantResolveAddress, t2)
      | .ok [] => (.error .CantResolveAddress, t2)
      | .ok (sock_addr :: _) =>
        let t3 := t2 ++ [Event.connect sock_addr]
        match env.tcpConnect sock_addr with
        | .error e => (.error (netLoadErrOfIOErr e), t3)
        | .ok stream =>
          let lvl := level_of compression
          let t4 := t3 ++ [Event.send stream executable_data "" lvl]
          match env.netSend stream executable_data "" lvl with
          | .error f => (.error (netLoadErrOfWiiLoadFail f), t4)
          | .ok () => (.ok (), t4)

-- ---------- main dispatch (main.rs 256-298) ----------

/-- The `Load` subcommand's parsed arguments. -/
structure LoadCommand where
  executable : String
  address : Option String
  no_compression : Bool
deriving DecidableEq, Repr

/-- `main`'s `Commands::Load` arm (main.rs 261-265): note the negation,
compression is on unless `--no-compression` was given. -/
def run_load (env : Env) (l : LoadCommand) :
    Except NetLoadError Unit × List Event :=
  do_net_load env l.executable l.address (!l.no_compression)

/-- `main`'s `ConfigDefaultAddressCommand::Get` arm (main.rs 277-280):
the config-store error is surfaced unchanged. -/
def run_config_get (env : Env) :
    Except DefaultAddressConfigError String × List Event :=
  get_default_address env

-- ---------- concrete environments used by witnesses ----------

/-- A healthy environment with no config file stored: config dir found,
file absent, all oracles succeed. -/
def envNoCfg : Env :=
  ⟨some "cfg", .absent, fun _ => .ok [1, 2], fun _ => .ok [3],
   fun _ => .ok 7, fun _ _ _ _ => .ok ()⟩

/-- An environment with a stored default address "stored". -/
def envStored : Env :=
  ⟨some "cfg", .present "stored", fun _ => .ok [1, 2], fun _ => .ok [3],
   fun _ => .ok 7, fun _ _ _ _ => .ok ()⟩

/-- An environment whose TCP connect always fails, with two resolution
candidates available. -/
def envConnFail : Env :=
  ⟨some "cfg", .absent, fun _ => .ok [1, 2], fun _ => .ok [3, 4],
   fun _ => .error ⟨.Other 13⟩, fun _ _ _ _ => .ok ()⟩

-- ---------- theorems ----------

/-- C1: with a stored default address absent, the resulting
`NoConfiguredDefault` is re-labelled by call context: in the load path
(`do_net_load` with no override) it becomes `NoAddressPassed`, while the
config default-address get path surfaces `NoConfiguredDefault` unchanged;
every other config-store error in the load path is wrapped in
`OtherConfigError` rather than remapped. -/
theorem load_vs_get_relabelling (env : Env) (p : String) (comp : Bool)
    (d : List Nat) (hread : env.readFile p = .ok d) :
    ((get_default_address env).1 = .error .NoConfiguredDefault →
      (do_net_load env p none comp).1 = .error .NoAddressPassed ∧
      (run_config_get env).1 = .error .NoConfiguredDefault) ∧
    (∀ e, (get_default_address env).1 = .error e →
      e ≠ .NoConfiguredDefault →
      (do_net_load env p none comp).1 = .error (.OtherConfigError e)) := by
  rcases hge : get_default_address env with ⟨r, t⟩
  constructor
  · intro h1
    simp only at h1
    subst h1
    refine ⟨?_, ?_⟩
    · simp [do_net_load, hread, maybe_get_address, hge, netLoadErrOfConfigErr]
    · simp [run_config_get, hge]
  · intro e h1 h2
    simp only at h1
    subst h1
    cases e with
    | NoConfiguredDefault => exact absurd rfl h2
    | NoSuitableFolder =>
      simp [do_net_load, hread, maybe_get_address, hge, netLoadErrOfConfigErr]
    | FileAccess e' =>
      simp [do_net_load, hread, maybe_get_address, hge, netLoadErrOfConfigErr]

/-- Witness for C1, at an environment whose config file is absent. -/
theorem load_vs_get_relabelling_witness :
    (do_net_load envNoCfg "exe" none true).1 = .error .NoAddressPassed ∧
    (run_config_get envNoCfg).1 = .error .NoConfiguredDefault :=
  (load_vs_get_relabelling envNoCfg "exe" true [1, 2] rfl).1 rfl

/-- C2: an explicit address override is returned unchanged, the config
store is never read in that case (no `readConfig` event occurs anywhere
in the load), and only when the override is absent is the stored default
consulted. -/
theorem override_never_reads_config (env : Env) (a p : String) (comp : Bool) :
    maybe_get_address env (some a) = (.ok a, []) ∧
    Event.readConfig ∉ (do_net_load env p (some a) comp).2 ∧
    maybe_get_address env none = get_default_address env := by
  refine ⟨rfl, ?_, rfl⟩
  unfold do_net_load
  cases h1 : env.readFile p with
  | error e => simp
  | ok d =>
    simp only [maybe_get_address]
    cases h2 : env.toSocketAddrs (connect_target a) with
    | error u => simp
    | ok cs =>
      cases cs with
      | nil => simp
      | cons c rest =>
        cases h3 : env.tcpConnect c with
        | error e => simp [h3]
        | ok st =>
          cases h4 : env.netSend st d "" (level_of comp) with
          | error f => simp [h3, h4]
          | ok u => simp [h3, h4]

/-- C3: writing a default address and then reading it back returns
exactly the written string, byte-for-byte, with no trimming or newline
handling on either side. -/
theorem write_read_roundtrip (env : Env) (A : String)
    (h : (set_default_address env A).1 = .ok ()) :
    (get_default_address (set_default_address env A).2.1).1 = .ok A := by
  cases hd : env.configDir with
  | none =>
    exfalso
    simp [set_default_address, get_config_path, hd] at h
  | some c =>
    cases hf : env.configFile with
    | inaccessible e =>
      exfalso
      simp [set_default_address, get_config_path, file_create_write, hd, hf] at h
    | absent =>
      simp [set_default_address, get_config_path, file_create_write, hd, hf,
        get_default_address, read_to_string]
    | present s =>
      simp [set_default_address, get_config_path, file_create_write, hd, hf,
        get_default_address, read_to_string]

/-- Witness for C3, with a trailing newline in the stored string. -/
theorem write_read_roundtrip_witness :
    (set_default_address envNoCfg "10.0.0.5\n").1 = .ok () ∧
    (get_default_address
      (set_default_address envNoCfg "10.0.0.5\n").2.1).1 = .ok "10.0.0.5\n" :=
  ⟨rfl, write_read_roundtrip envNoCfg "10.0.0.5\n" rfl⟩

-- ---------- shape lemmas for `do_net_load`, shared by several claims ----------

theorem string_append_assoc (a b c : String) :
    a ++ b ++ c = a ++ (b ++ c) := by
  apply String.ext
  simp [String.data_append]

theorem connect_target_eq (h : String) : connect_target h = h ++ ":4299" := by
  unfold connect_target
  rw [string_append_assoc]
  congr 1

/-- `do_net_load` when reading the executable fails. -/
theorem load_read_fails (env : Env) (p : String) (addr : Option String)
    (comp : Bool) (e : IOErr) (h : env.readFile p = .error e) :
    do_net_load env p addr comp = (.error (.IOFail e), [Event.readExe p]) := by
  simp [do_net_load, h, netLoadErrOfIOErr]

/-- `do_net_load` when the executable is read but address resolution from
the config store fails. -/
theorem load_config_fails (env : Env) (p : String) (addr : Option String)
    (comp : Bool) (d : List Nat) (e : DefaultAddressConfigError)
    (t1 : List Event) (hread : env.readFile p = .ok d)
    (hmga : maybe_get_address env addr = (.error e, t1)) :
    do_net_load env p addr comp =
      (.error (netLoadErrOfConfigErr e), Event.readExe p :: t1) := by
  simp [do_net_load, hread, hmga]

/-- `do_net_load` when `to_socket_addrs` fails or returns no candidate. -/
theorem load_resolve_fails (env : Env) (p a : String) (addr : Option String)
    (comp : Bool) (d : List Nat) (t1 : List Event)
    (hread : env.readFile p = .ok d)
    (hmga : maybe_get_address env addr = (.ok a, t1))
    (hres : ∀ c cs, env.toSocketAddrs (connect_target a) ≠ .ok (c :: cs)) :
    do_net_load env p addr comp =
      (.error .CantResolveAddress,
       Event.readExe p :: t1 ++ [Event.resolve (connect_target a)]) := by
  cases h2 : env.toSocketAddrs (connect_target a) with
  | error u => simp [do_net_load, hread, hmga, h2]
  | ok cs =>
    cases cs with
    | nil => simp [do_net_load, hread, hmga, h2]
    | cons c rest => exact absurd h2 (hres c rest)

/-- `do_net_load` when resolution yields candidates but the TCP connect
to the first one fails. -/
theorem load_connect_fails (env : Env) (p a : String) (addr : Option String)
    (comp : Bool) (d : List Nat) (t1 : List Event) (c : Nat) (cs : List Nat)
    (e : IOErr) (hread : env.readFile p = .ok d)
    (hmga : maybe_get_address env addr = (.ok a, t1))
    (hres : env.toSocketAddrs (connect_target a) = .ok (c :: cs))
    (hconn : env.tcpConnect c = .error e) :
    do_net_load env p addr comp =
      (.error (.IOFail e),
       Event.readExe p :: t1 ++
         [Event.resolve (connect_target a), Event.connect c]) := by
  simp [do_net_load, hread, hmga, hres, hconn, netLoadErrOfIOErr]

/-- `do_net_load` when everything up to the encoder call succeeds: the
outcome is the encoder's outcome, converted pointwise. -/
theorem load_send_result (env : Env) (p a : String) (addr : Option String)
    (comp : Bool) (d : List Nat) (t1 : List Event) (c : Nat) (cs : List Nat)
    (st : Nat) (hread : env.readFile p = .ok d)
    (hmga : maybe_get_address env addr = (.ok a, t1))
    (hres : env.toSocketAddrs (connect_target a) = .ok (c :: cs))
    (hconn : env.tcpConnect c = .ok st) :
    do_net_load env p addr comp =
      ((match env.netSend st d "" (level_of comp) with
        | .ok _ => .ok ()
        | .error f => .error (netLoadErrOfWiiLoadFail f)),
       Event.readExe p :: t1 ++
         [Event.resolve (connect_target a), Event.connect c,
          Event.send st d "" (level_of comp)]) := by
  cases h4 : env.netSend st d "" (level_of comp) with
  | error f => simp [do_net_load, hread, hmga, hres, hconn, h4]
  | ok u => simp [do_net_load, hread, hmga, hres, hconn, h4]

/-- The trace of a config-store read: empty when no suitable config
directory exists (the read is never attempted), a single `readConfig`
event otherwise. -/
theorem get_default_address_trace (env : Env) :
    (get_default_address env).2 = [] ∨
    (get_default_address env).2 = [Event.readConfig] := by
  cases hd : env.configDir with
  | none => left; simp [get_default_address, get_config_path, hd]
  | some c => right; simp [get_default_address, get_config_path, hd]

/-- C4: connection establishment always targets `<host>:4299`, the port
being the fixed constant `TCP_PORT`; only the first candidate returned by
resolution is connected to; and a failing resolution call and a
resolution returning zero candidates yield the very same output (result
and trace), namely `CantResolveAddress` — indistinguishably. -/
theorem fixed_port_first_candidate (env : Env) (p a : String) (comp : Bool)
    (d : List Nat) (hread : env.readFile p = .ok d) :
    (∀ s, Event.resolve s ∈ (do_net_load env p (some a) comp).2 →
      s = a ++ ":4299") ∧
    (connect_target a = a ++ ":" ++ toString TCP_PORT ∧ TCP_PORT = 4299) ∧
    (∀ c cs, env.toSocketAddrs (connect_target a) = .ok (c :: cs) →
      Event.connect c ∈ (do_net_load env p (some a) comp).2 ∧
      ∀ c', Event.connect c' ∈ (do_net_load env p (some a) comp).2 →
        c' = c) ∧
    ((env.toSocketAddrs (connect_target a) = .error () ∨
      env.toSocketAddrs (connect_target a) = .ok []) →
      do_net_load env p (some a) comp =
        (.error .CantResolveAddress,
         [Event.readExe p, Event.resolve (connect_target a)])) := by
  have hmga : maybe_get_address env (some a) = (.ok a, []) := rfl
  refine ⟨?_, ⟨rfl, rfl⟩, ?_, ?_⟩
  · intro s hs
    rw [← connect_target_eq]
    cases h2 : env.toSocketAddrs (connect_target a) with
    | error u =>
      rw [load_resolve_fails env p a (some a) comp d [] hread hmga
        (fun c cs hc => by simp [h2] at hc)] at hs
      simpa using hs
    | ok cs =>
      cases cs with
      | nil =>
        rw [load_resolve_fails env p a (some a) comp d [] hread hmga
          (fun c cs hc => by simp [h2] at hc)] at hs
        simpa using hs
      | cons c rest =>
        cases h3 : env.tcpConnect c with
        | error e =>
          rw [load_connect_fails env p a (some a) comp d [] c rest e hread
            hmga h2 h3] at hs
          simpa using hs
        | ok st =>
          rw [load_send_result env p a (some a) comp d [] c rest st hread
            hmga h2 h3] at hs
          simpa using hs
  · intro c cs hres
    cases h3 : env.tcpConnect c with
    | error e =>
      rw [load_connect_fails env p a (some a) comp d [] c cs e hread
        hmga hres h3]
      constructor
      · simp
      · intro c' hc'
        simpa using hc'
    | ok st =>
      rw [load_send_result env p a (some a) comp d [] c cs st hread
        hmga hres h3]
      constructor
      · simp
      · intro c' hc'
        simpa using hc'
  · intro hdisj
    have hne : ∀ c cs, env.toSocketAddrs (connect_target a) ≠ .ok (c :: cs) := by
      intro c cs hc
      rcases hdisj with h2 | h2 <;> simp [h2] at hc
    have := load_resolve_fails env p a (some a) comp d [] hread hmga hne
    simpa using this

/-- Witness for C4, at an environment resolving to one candidate. -/
theorem fixed_port_first_candidate_witness :
    (∀ s, Event.resolve s ∈ (do_net_load envStored "exe" (some "wii") true).2 →
      s = "wii" ++ ":4299") ∧
    (connect_target "wii" = "wii" ++ ":" ++ toString TCP_PORT ∧
      TCP_PORT = 4299) ∧
    (∀ c cs, envStored.toSocketAddrs (connect_target "wii") = .ok (c :: cs) →
      Event.connect c ∈ (do_net_load envStored "exe" (some "wii") true).2 ∧
      ∀ c', Event.connect c' ∈
          (do_net_load envStored "exe" (some "wii") true).2 → c' = c) ∧
    ((envStored.toSocketAddrs (connect_target "wii") = .error () ∨
      envStored.toSocketAddrs (connect_target "wii") = .ok []) →
      do_net_load envStored "exe" (some "wii") true =
        (.error .CantResolveAddress,
         [Event.readExe "exe", Event.resolve (connect_target "wii")])) :=
  fixed_port_first_candidate envStored "exe" "wii" true [1, 2] rfl

/-- C5: in every load invocation the executable file read comes first,
strictly before any network activity; the step order is read file, then
consult the config store (when needed), then resolve the address, then
connect, then send; the produced event trace is always an initial
segment of that canonical sequence, so a failure at any step prevents
all later steps, and a successful load performs the full sequence. -/
theorem load_step_order (env : Env) (p : String) (addr : Option String)
    (comp : Bool) :
    ∃ tcfg host c st d,
      (∀ ev ∈ tcfg, ev = Event.readConfig) ∧
      (∃ t, (do_net_load env p addr comp).2 ++ t =
        Event.readExe p :: tcfg ++
          [Event.resolve (connect_target host), Event.connect c,
           Event.send st d "" (level_of comp)]) ∧
      ((do_net_load env p addr comp).1 = .ok () →
        (do_net_load env p addr comp).2 =
          Event.readExe p :: tcfg ++
            [Event.resolve (connect_target host), Event.connect c,
             Event.send st d "" (level_of comp)]) := by
  cases h1 : env.readFile p with
  | error e =>
    rw [load_read_fails env p addr comp e h1]
    exact ⟨[], "", 0, 0, [], by simp, ⟨_, rfl⟩, by simp⟩
  | ok d =>
    rcases hmga : maybe_get_address env addr with ⟨r, t1⟩
    have ht1 : ∀ ev ∈ t1, ev = Event.readConfig := by
      intro ev hev
      cases addr with
      | some a =>
        have : t1 = [] := congrArg Prod.snd hmga.symm
        subst this
        simp at hev
      | none =>
        have h' : (get_default_address env).2 = t1 :=
          congrArg Prod.snd hmga
        rcases get_default_address_trace env with h | h <;>
          rw [h'] at h <;> subst h <;> simp_all
    cases r with
    | error e =>
      rw [load_config_fails env p addr comp d e t1 h1 hmga]
      exact ⟨t1, "", 0, 0, [], ht1,
        ⟨[Event.resolve (connect_target ""), Event.connect 0,
          Event.send 0 [] "" (level_of comp)], by simp⟩, by simp⟩
    | ok a =>
      cases h2 : env.toSocketAddrs (connect_target a) with
      | error u =>
        rw [load_resolve_fails env p a addr comp d t1 h1 hmga
          (fun c cs hc => by simp [h2] at hc)]
        exact ⟨t1, a, 0, 0, d, ht1,
          ⟨[Event.connect 0, Event.send 0 d "" (level_of comp)], by simp⟩,
          by simp⟩
      | ok cs =>
        cases cs with
        | nil =>
          rw [load_resolve_fails env p a addr comp d t1 h1 hmga
            (fun c cs hc => by simp [h2] at hc)]
          exact ⟨t1, a, 0, 0, d, ht1,
            ⟨[Event.connect 0, Event.send 0 d "" (level_of comp)], by simp⟩,
            by simp⟩
        | cons c rest =>
          cases h3 : env.tcpConnect c with
          | error e =>
            rw [load_connect_fails env p a addr comp d t1 c rest e h1
              hmga h2 h3]
            exact ⟨t1, a, c, 0, d, ht1,
              ⟨[Event.send 0 d "" (level_of comp)], by simp⟩, by simp⟩
          | ok st =>
            rw [load_send_result env p a addr comp d t1 c rest st h1
              hmga h2 h3]
            exact ⟨t1, a, c, st, d, ht1, ⟨[], by simp⟩, by simp⟩

/-- The trace of address resolution consists of config reads only. -/
theorem maybe_get_address_trace (env : Env) (addr : Option String) :
    ∀ ev ∈ (maybe_get_address env addr).2, ev = Event.readConfig := by
  intro ev hev
  cases addr with
  | some a => simp [maybe_get_address] at hev
  | none =>
    have h' : (maybe_get_address env none).2 = (get_default_address env).2 :=
      rfl
    rcases get_default_address_trace env with h | h
    · rw [h', h] at hev
      simp at hev
    · rw [h', h] at hev
      simpa using hev

/-- C6: every invocation of the external encoder receives the empty
argument string; the compression level passed is
`some DEFAULT_COMPRESSION_LEVEL` (that is, 5) exactly when compression is
enabled and `none` ("no compression") when it is disabled; `main` enables
compression unless the `--no-compression` flag was given. -/
theorem encoder_args_and_level (env : Env) (l : LoadCommand) :
    run_load env l =
      do_net_load env l.executable l.address (!l.no_compression) ∧
    DEFAULT_COMPRESSION_LEVEL = 5 ∧
    (∀ st d a lvl, Event.send st d a lvl ∈ (run_load env l).2 →
      a = "" ∧
      lvl = if l.no_compression then none
            else some DEFAULT_COMPRESSION_LEVEL) := by
  refine ⟨rfl, rfl, ?_⟩
  intro st d a lvl hmem
  have hlvl : level_of (!l.no_compression) =
      if l.no_compression then none else some DEFAULT_COMPRESSION_LEVEL := by
    cases h : l.no_compression <;> rfl
  rw [show run_load env l =
    do_net_load env l.executable l.address (!l.no_compression) from rfl] at hmem
  cases h1 : env.readFile l.executable with
  | error e =>
    rw [load_read_fails env l.executable l.address (!l.no_compression)
      e h1] at hmem
    simp at hmem
  | ok dd =>
    rcases hmga : maybe_get_address env l.address with ⟨r, t1⟩
    have ht1 : ∀ ev ∈ t1, ev = Event.readConfig := by
      have h := maybe_get_address_trace env l.address
      rw [hmga] at h
      exact h
    cases r with
    | error e =>
      rw [load_config_fails env l.executable l.address (!l.no_compression)
        dd e t1 h1 hmga] at hmem
      simp at hmem
      exact absurd (ht1 _ hmem) (by simp)
    | ok host =>
      cases h2 : env.toSocketAddrs (connect_target host) with
      | error u =>
        rw [load_resolve_fails env l.executable host l.address
          (!l.no_compression) dd t1 h1 hmga
          (fun c cs hc => by simp [h2] at hc)] at hmem
        simp at hmem
        exact absurd (ht1 _ hmem) (by simp)
      | ok cs =>
        cases cs with
        | nil =>
          rw [load_resolve_fails env l.executable host l.address
            (!l.no_compression) dd t1 h1 hmga
            (fun c cs hc => by simp [h2] at hc)] at hmem
          simp at hmem
          exact absurd (ht1 _ hmem) (by simp)
        | cons c rest =>
          cases h3 : env.tcpConnect c with
          | error e =>
            rw [load_connect_fails env l.executable host l.address
              (!l.no_compression) dd t1 c rest e h1 hmga h2 h3] at hmem
            simp at hmem
            exact absurd (ht1 _ hmem) (by simp)
          | ok stream =>
            rw [load_send_result env l.executable host l.address
              (!l.no_compression) dd t1 c rest stream h1 hmga h2 h3] at hmem
            simp at hmem
            rcases hmem with hmem | ⟨hst, hd, ha, hl⟩
            · exact absurd (ht1 _ hmem) (by simp)
            · exact ⟨ha, by rw [hl, hlvl]⟩

/-- Witness for C6, at a concrete fully-succeeding load whose trace
contains the encoder call. -/
theorem encoder_args_and_level_witness :
    ("" : String) = "" ∧
    (some 5 : Option Nat) =
      if (false : Bool) then none else some DEFAULT_COMPRESSION_LEVEL :=
  (encoder_args_and_level envStored ⟨"exe", some "wii", false⟩).2.2
    7 [1, 2] "" (some 5) (by decide)

/-- C7: deleting the config file when it is missing fails with
`NoConfiguredDefault` (a failure, not a no-op success); any other I/O
failure during removal yields `FileAccess` carrying the OS error; on
success the file is removed and unit is returned. -/
theorem delete_default_behaviour (env : Env) (dir : String)
    (hdir : env.configDir = some dir) :
    (env.configFile = .absent →
      remove_config_files env =
        (.error .NoConfiguredDefault, env, [Event.removeConfig])) ∧
    (∀ e, env.configFile = .inaccessible e → e.kind ≠ .NotFound →
      remove_config_files env =
        (.error (.FileAccess e), env, [Event.removeConfig])) ∧
    (∀ s, env.configFile = .present s →
      remove_config_files env =
        (.ok (), { env with configFile := .absent },
         [Event.removeConfig])) := by
  refine ⟨?_, ?_, ?_⟩
  · intro hf
    simp [remove_config_files, get_config_path, file_remove, hdir, hf]
  · intro e hf hk
    obtain ⟨k⟩ := e
    cases k with
    | NotFound => exact absurd rfl hk
    | Other n =>
      simp [remove_config_files, get_config_path, file_remove, hdir, hf]
  · intro s hf
    simp [remove_config_files, get_config_path, file_remove, hdir, hf]

/-- Witness for C7, deleting with no config file present. -/
theorem delete_default_behaviour_witness :
    remove_config_files envNoCfg =
      (.error .NoConfiguredDefault, envNoCfg, [Event.removeConfig]) :=
  (delete_default_behaviour envNoCfg "cfg" rfl).1 rfl

/-- C8: the encoder's three failure kinds map one-to-one into the load
error taxonomy — arguments too long to `ArgsTooLong`, binary too long to
`BinaryTooLong`, network error to the generic I/O error — and any
non-failing encoder outcome makes the load operation succeed. -/
theorem encoder_failure_mapping (env : Env) (p a : String) (comp : Bool)
    (d : List Nat) (c : Nat) (cs : List Nat) (st : Nat)
    (hread : env.readFile p = .ok d)
    (hres : env.toSocketAddrs (connect_target a) = .ok (c :: cs))
    (hconn : env.tcpConnect c = .ok st) :
    netLoadErrOfWiiLoadFail .ArgsTooLong = .ArgsTooLong ∧
    netLoadErrOfWiiLoadFail .BinaryTooLong = .BinaryTooLong ∧
    (∀ e, netLoadErrOfWiiLoadFail (.NetError e) = .IOFail e) ∧
    (env.netSend st d "" (level_of comp) = .ok () →
      (do_net_load env p (some a) comp).1 = .ok ()) ∧
    (∀ f, env.netSend st d "" (level_of comp) = .error f →
      (do_net_load env p (some a) comp).1 =
        .error (netLoadErrOfWiiLoadFail f)) := by
  have hmga : maybe_get_address env (some a) = (.ok a, []) := rfl
  have hs := load_send_result env p a (some a) comp d [] c cs st hread
    hmga hres hconn
  refine ⟨rfl, rfl, fun e => rfl, ?_, ?_⟩
  · intro h4
    rw [hs]
    simp [h4]
  · intro f h4
    rw [hs]
    simp [h4]

/-- Witness for C8, at a concrete environment where all steps succeed. -/
theorem encoder_failure_mapping_witness :
    (do_net_load envStored "exe" (some "wii") true).1 = .ok () :=
  (encoder_failure_mapping envStored "exe" "wii" true [1, 2] 3 [] 7
    rfl rfl rfl).2.2.2.1 rfl

/-- C9: a failure of the TCP connect to the single chosen candidate
yields the generic I/O error, never `CantResolveAddress`, and no retry
and no fallback to a second resolved candidate occurs even when more
candidates exist: the trace contains exactly one connect event, to the
first candidate. -/
theorem connect_failure_no_fallback (env : Env) (p a : String) (comp : Bool)
    (d : List Nat) (c c2 : Nat) (cs : List Nat) (e : IOErr)
    (hread : env.readFile p = .ok d)
    (hres : env.toSocketAddrs (connect_target a) = .ok (c :: c2 :: cs))
    (hconn : env.tcpConnect c = .error e) :
    do_net_load env p (some a) comp =
      (.error (.IOFail e),
       [Event.readExe p, Event.resolve (connect_target a),
        Event.connect c]) ∧
    NetLoadError.IOFail e ≠ .CantResolveAddress ∧
    (∀ x, Event.connect x ∈ (do_net_load env p (some a) comp).2 →
      x = c) := by
  have hmga : maybe_get_address env (some a) = (.ok a, []) := rfl
  have hc := load_connect_fails env p a (some a) comp d [] c (c2 :: cs) e
    hread hmga hres hconn
  refine ⟨by simpa using hc, by simp, ?_⟩
  intro x hx
  rw [hc] at hx
  simpa using hx

/-- Witness for C9, with two candidates and a failing connect. -/
theorem connect_failure_no_fallback_witness :
    do_net_load envConnFail "exe" (some "wii") true =
      (.error (.IOFail ⟨.Other 13⟩),
       [Event.readExe "exe", Event.resolve (connect_target "wii"),
        Event.connect 3]) ∧
    NetLoadError.IOFail ⟨.Other 13⟩ ≠ .CantResolveAddress ∧
    (∀ x, Event.connect x ∈ (do_net_load envConnFail "exe" (some "wii") true).2 →
      x = 3) :=
  connect_failure_no_fallback envConnFail "exe" "wii" true [1, 2] 3 4 []
    ⟨.Other 13⟩ rfl rfl rfl

/-- C10: the empty string is a valid stored default:
`set_default_address ""` succeeds, after which reading the default
returns `.ok ""` rather than `NoConfiguredDefault` — the "nothing
stored" error arises only from the file's absence, never from empty
content — so a subsequent load with no override attempts to resolve
`":4299"`. -/
theorem empty_default_valid (env : Env) (dir : String)
    (hdir : env.configDir = some dir)
    (hacc : ∀ e, env.configFile ≠ .inaccessible e) :
    (set_default_address env "").1 = .ok () ∧
    (get_default_address (set_default_address env "").2.1).1 = .ok "" ∧
    (∀ p comp d, env.readFile p = .ok d →
      Event.resolve ":4299" ∈
        (do_net_load (set_default_address env "").2.1 p none comp).2) := by
  have hw : file_create_write env.configFile "" = .ok (.present "") := by
    cases hf : env.configFile with
    | inaccessible e => exact absurd hf (hacc e)
    | absent => rfl
    | present s => rfl
  have hset : set_default_address env "" =
      (.ok (), { env with configFile := .present "" },
       [Event.writeConfig ""]) := by
    simp [set_default_address, get_config_path, hdir, hw]
  rw [hset]
  have hct : connect_target "" = ":4299" := by
    rw [connect_target_eq]
    rfl
  have hmga : maybe_get_address
      ({ env with configFile := .present "" } : Env) none =
      (.ok "", [Event.readConfig]) := by
    simp [maybe_get_address, get_default_address, get_config_path, hdir,
      read_to_string]
  refine ⟨rfl, ?_, ?_⟩
  · simp [get_default_address, get_config_path, hdir, read_to_string]
  · intro p comp d hread
    have hread' : ({ env with configFile := FileState.present "" } : Env).readFile p = .ok d := hread
    cases h2 : env.toSocketAddrs (connect_target "") with
    | error u =>
      rw [load_resolve_fails { env with configFile := .present "" } p ""
        none comp d [Event.readConfig] hread' hmga
        (fun c cs hc => by simp [h2] at hc)]
      simp [hct]
    | ok cs =>
      cases cs with
      | nil =>
        rw [load_resolve_fails { env with configFile := .present "" } p ""
          none comp d [Event.readConfig] hread' hmga
          (fun c cs hc => by simp [h2] at hc)]
        simp [hct]
      | cons c rest =>
        cases h3 : env.tcpConnect c with
        | error e =>
          rw [load_connect_fails { env with configFile := .present "" } p ""
            none comp d [Event.readConfig] c rest e hread' hmga h2 h3]
          simp [hct]
        | ok st =>
          rw [load_send_result { env with configFile := .present "" } p ""
            none comp d [Event.readConfig] c rest st hread' hmga h2 h3]
          simp [hct]

/-- Witness for C10, at a concrete environment with a stored default
that gets overwritten by the empty string. -/
theorem empty_default_valid_witness :
    (set_default_address envStored "").1 = .ok () ∧
    (get_default_address (set_default_address envStored "").2.1).1 = .ok "" ∧
    Event.resolve ":4299" ∈
      (do_net_load (set_default_address envStored "").2.1 "exe" none true).2 := by
  have h := empty_default_valid envStored "cfg" rfl
    (fun e h => FileState.noConfusion h)
  exact ⟨h.1, h.2.1, h.2.2 "exe" true [1, 2] rfl⟩

end Riiload
